import Mathlib

/-!
Shallow embedding of the authentication and authorization core of the
food-market backend (src/backend/app): the user data model
(app/models/user.py), identity resolution and role guard
(app/auth/dependencies.py), and the register / login / me / update
handlers (app/api/v1/auth.py).

Conventions of the embedding:
- datetimes are natural numbers (seconds since an arbitrary epoch);
- the MongoDB users collection is a list of stored user documents,
  with find_one as List.find? on the query predicate, insert_one as
  appending, and update_one with a set document as rewriting the first
  matching element;
- HTTPException is an explicit error value carrying the status code,
  the detail string and the optional WWW-Authenticate header;
- the module app.auth.jwt (credential hasher and token service) is
  imported by the code but absent from the sources, so the token
  service is modelled from the spec (see create_access_token and
  verify_token below) and the password hasher and the email-shape
  validator are abstract function parameters.
-/

/-- Stored user document, mirroring UserInDB of app/models/user.py and
the document built by the register handler. -/
structure UserInDB where
  id : String
  email : String
  name : String
  role : String
  locale : String
  hashed_password : String
  created_at : Nat
  updated_at : Nat
deriving Repr, DecidableEq

/-- Public user view, mirroring UserPublic of app/models/user.py: the
same identity fields but no hashed_password field. -/
structure UserPublic where
  id : String
  email : String
  name : String
  role : String
  locale : String
  created_at : Nat
  updated_at : Nat
deriving Repr, DecidableEq

/-- The projection the handlers perform when building a UserPublic from
a stored document (register lines 48-56, login lines 90-98, update
lines 137-145 of app/api/v1/auth.py). -/
def toPublic (u : UserInDB) : UserPublic :=
  { id := u.id
    email := u.email
    name := u.name
    role := u.role
    locale := u.locale
    created_at := u.created_at
    updated_at := u.updated_at }

/-- Pydantic serialization of a UserPublic response body: exactly the
fields declared on UserPublic, as key-value pairs. -/
def serializeUserPublic (u : UserPublic) : List (String × String) :=
  [("id", u.id), ("email", u.email), ("name", u.name), ("role", u.role),
   ("locale", u.locale), ("created_at", toString u.created_at),
   ("updated_at", toString u.updated_at)]

/-- An HTTPException as raised by the handlers: status code, detail
message, optional WWW-Authenticate header value. -/
structure ErrorResponse where
  status_code : Nat
  detail : String
  www_authenticate : Option String
deriving Repr, DecidableEq

/-- register, app/api/v1/auth.py lines 24-27. -/
def conflictEmailExists : ErrorResponse :=
  { status_code := 400, detail := "Email already registered", www_authenticate := none }

/-- login, app/api/v1/auth.py lines 67-71 and 75-79 (both failure
branches build this same value). -/
def loginUnauthenticated : ErrorResponse :=
  { status_code := 401, detail := "Incorrect email or password", www_authenticate := some "Bearer" }

/-- get_current_user, app/auth/dependencies.py lines 18-22 and 26-30. -/
def credsInvalid : ErrorResponse :=
  { status_code := 401, detail := "Could not validate credentials", www_authenticate := some "Bearer" }

/-- get_current_user, app/auth/dependencies.py lines 37-41. -/
def userNotFound : ErrorResponse :=
  { status_code := 401, detail := "User not found", www_authenticate := some "Bearer" }

/-- require_role, app/auth/dependencies.py lines 64-67. -/
def forbidden : ErrorResponse :=
  { status_code := 403, detail := "Not enough permissions", www_authenticate := none }

/-- FastAPI/pydantic request-validation failure (422). -/
def validationError : ErrorResponse :=
  { status_code := 422, detail := "Validation failed", www_authenticate := none }

/-- Modelled from the spec: token payload of the Token Service (section
4.2); app/auth/jwt.py is not among the sources. The payload carries an
optional subject claim and an absolute expiry. -/
structure TokenPayload where
  sub : Option String
  exp : Nat
deriving Repr, DecidableEq

/-- Modelled from the spec: a bearer token is either a well-formed
payload signed with some symmetric secret, or a malformed string
(section 4.2; app/auth/jwt.py is not among the sources). -/
inductive Token where
  | signed (payload : TokenPayload) (signedWith : String)
  | malformed (raw : String)
deriving Repr, DecidableEq

/-- Modelled from the spec: issue of section 4.2 (app/auth/jwt.py is
not among the sources). Produces a signed token whose payload carries
sub = subject and an absolute expiry now + ttl, signed with the
process-wide symmetric secret. -/
def create_access_token (secret : String) (subject : String) (now ttl : Nat) : Token :=
  Token.signed { sub := some subject, exp := now + ttl } secret

/-- Modelled from the spec: verify of section 4.2 (app/auth/jwt.py is
not among the sources). Validates the signature against the secret and
the expiry against the current time; returns none (invalid), never an
exception, on malformed encoding, signature mismatch or expiry in the
past; never partially trusts a payload whose signature fails. -/
def verify_token (secret : String) (now : Nat) : Token → Option TokenPayload
  | Token.malformed _ => none
  | Token.signed payload signedWith =>
      if signedWith = secret ∧ now ≤ payload.exp then some payload else none

/-- get_current_user of app/auth/dependencies.py lines 12-52: verify
the token, extract the sub claim, look the subject up in the users
collection; each failure raises a 401. -/
def get_current_user (secret : String) (now : Nat) (store : List UserInDB)
    (token : Token) : Except ErrorResponse UserInDB :=
  match verify_token secret now token with
  | none => Except.error credsInvalid
  | some payload =>
      match payload.sub with
      | none => Except.error credsInvalid
      | some user_id =>
          match store.find? (fun u => u.id == user_id) with
          | none => Except.error userNotFound
          | some user_data => Except.ok user_data

/-- The role check performed by the role_checker closure returned by
require_role, app/auth/dependencies.py lines 60-69, as a pure function
of the required role and the already-resolved user. -/
def require_role (required_role : String) (current_user : UserInDB) :
    Except ErrorResponse UserInDB :=
  if current_user.role ≠ required_role ∧ current_user.role ≠ "super_admin" then
    Except.error forbidden
  else
    Except.ok current_user

/-- Registration request body, mirroring UserCreate of
app/models/user.py (UserBase plus password). -/
structure UserCreate where
  email : String
  name : String
  role : String
  locale : String
  password : String
deriving Repr, DecidableEq

/-- The password constraint declared on UserCreate,
app/models/user.py line 14: Field min_length 8. -/
def password_min_length_ok (p : String) : Bool :=
  decide (8 ≤ p.length)

/-- The pydantic validation of a UserCreate body, from the field
declarations of app/models/user.py lines 6-14: email shape (EmailStr,
abstracted as a parameter), name at most 100 characters, role and
locale restricted to their literals, password at least 8 characters. -/
def userCreateValid (emailShapeOk : String → Bool) (r : UserCreate) : Bool :=
  emailShapeOk r.email &&
  decide (r.name.length ≤ 100) &&
  (r.role == "customer" || r.role == "market_admin" || r.role == "super_admin") &&
  (r.locale == "en" || r.locale == "ua") &&
  password_min_length_ok r.password

/-- The user document built by register, app/api/v1/auth.py lines
33-42: a fresh id, the request fields, the hashed password and both
timestamps set to now. -/
def newUserDoc (hash : String → String) (newId : String) (now : Nat)
    (user_data : UserCreate) : UserInDB :=
  { id := newId
    email := user_data.email
    name := user_data.name
    role := user_data.role
    locale := user_data.locale
    hashed_password := hash user_data.password
    created_at := now
    updated_at := now }

/-- register of app/api/v1/auth.py lines 16-56 (after request
validation): look up by email, 400 on a hit, otherwise build the
document (password hashed, fresh id, timestamps), insert it and return
the public view. Returns the response together with the users
collection after the call. -/
def register (hash : String → String) (newId : String) (now : Nat)
    (store : List UserInDB) (user_data : UserCreate) :
    Except ErrorResponse UserPublic × List UserInDB :=
  match store.find? (fun u => u.email == user_data.email) with
  | some _ => (Except.error conflictEmailExists, store)
  | none =>
      (Except.ok (toPublic (newUserDoc hash newId now user_data)),
       store ++ [newUserDoc hash newId now user_data])

/-- The register endpoint including the pydantic request validation
that FastAPI runs before the handler body: a body failing the
UserCreate constraints is rejected with 422 and the handler never
runs. -/
def handle_register (emailShapeOk : String → Bool) (hash : String → String)
    (newId : String) (now : Nat) (store : List UserInDB) (r : UserCreate) :
    Except ErrorResponse UserPublic × List UserInDB :=
  if userCreateValid emailShapeOk r then
    register hash newId now store r
  else
    (Except.error validationError, store)

/-- Successful login response body, app/api/v1/auth.py lines 87-99. -/
structure LoginResponse where
  access_token : Token
  token_type : String
  user : UserPublic
deriving Repr, DecidableEq

/-- login of app/api/v1/auth.py lines 59-99: find the user by email
(the form username field), 401 if absent; verify the password against
the stored digest, 401 on mismatch; otherwise issue a token for the
user id with the configured TTL. The password verifier (app/auth/jwt.py,
absent from the sources) is an abstract parameter. -/
def login (verify_password : String → String → Bool) (secret : String)
    (now ttl : Nat) (store : List UserInDB) (username password : String) :
    Except ErrorResponse LoginResponse :=
  match store.find? (fun u => u.email == username) with
  | none => Except.error loginUnauthenticated
  | some user_data =>
      if ¬ verify_password password user_data.hashed_password then
        Except.error loginUnauthenticated
      else
        Except.ok
          { access_token := create_access_token secret user_data.id now ttl
            token_type := "bearer"
            user := toPublic user_data }

/-- get_current_user_info of app/api/v1/auth.py lines 102-105: returns
the resolved user, serialized through the UserPublic response model. -/
def get_current_user_info (current_user : UserInDB) : UserPublic :=
  toPublic current_user

/-- Partial profile update body, mirroring UserUpdate of
app/models/user.py lines 30-32. -/
structure UserUpdate where
  name : Option String
  locale : Option String
deriving Repr, DecidableEq

/-- The set document built by update_current_user, app/api/v1/auth.py
lines 117-126 and 129-132, applied to a stored document: the supplied
fields plus a refreshed updated_at. -/
def applySet (user_update : UserUpdate) (now : Nat) (u : UserInDB) : UserInDB :=
  { u with
    name := user_update.name.getD u.name
    locale := user_update.locale.getD u.locale
    updated_at := now }

/-- MongoDB update_one with a set document: rewrite the first document
matching the id, leave the rest untouched. -/
def update_one (id : String) (f : UserInDB → UserInDB) :
    List UserInDB → List UserInDB
  | [] => []
  | u :: rest =>
      if u.id == id then f u :: rest else u :: update_one id f rest

/-- update_current_user of app/api/v1/auth.py lines 108-145: build the
update data from the supplied fields; if empty, return the current user
with no write; otherwise set the fields plus updated_at on the stored
document, re-read it and return its public view. Returns none where
the code would crash (re-read of the current user id finds nothing). -/
def update_current_user (now : Nat) (store : List UserInDB)
    (current_user : UserInDB) (user_update : UserUpdate) :
    Option (UserPublic × List UserInDB) :=
  if user_update.name = none ∧ user_update.locale = none then
    some (toPublic current_user, store)
  else
    match (update_one current_user.id (applySet user_update now) store).find?
        (fun u => u.id == current_user.id) with
    | none => none
    | some updated_user =>
        some (toPublic updated_user,
              update_one current_user.id (applySet user_update now) store)

/-! ## Theorems -/

/-- C1: for every user and required role, require_role returns ok iff
the user role equals the required role or equals super_admin, and
otherwise returns the 403 Forbidden error; the check is a pure function
of its two arguments (it is a total Lean function, no effects). -/
theorem requireRole_ok_iff (u : UserInDB) (role : String) :
    ((require_role role u).isOk ↔ (u.role = role ∨ u.role = "super_admin")) ∧
    (¬ (u.role = role ∨ u.role = "super_admin") →
      require_role role u = Except.error forbidden) := by
  unfold require_role
  by_cases h : u.role = role ∨ u.role = "super_admin"
  · rcases h with h | h <;> simp [h, Except.isOk, Except.toBool]
  · push_neg at h
    simp [h.1, h.2, Except.isOk, Except.toBool]

/-- A sample stored user with role customer, for concrete instances. -/
def sampleCustomer : UserInDB :=
  { id := "u1", email := "c@example.com", name := "Cara", role := "customer",
    locale := "en", hashed_password := "digest1", created_at := 0, updated_at := 0 }

/-- A sample stored user with role super_admin. -/
def sampleSuperAdmin : UserInDB :=
  { id := "u2", email := "s@example.com", name := "Sam", role := "super_admin",
    locale := "en", hashed_password := "digest2", created_at := 0, updated_at := 0 }

/-- Witness for C1: the customer fails the market_admin check with the
Forbidden error. -/
theorem requireRole_ok_iff_witness :
    require_role "market_admin" sampleCustomer = Except.error forbidden :=
  (requireRole_ok_iff sampleCustomer "market_admin").2 (by decide)

/-- C2: the two login failure causes, unknown email and known email with
failing password verification, produce the very same error value
(identical status, message and header): for any store and verifier, a
username matching no stored user yields the 401 loginUnauthenticated
error, and a username matching a stored user whose digest fails
verification yields that same error value. -/
theorem login_failures_indistinguishable
    (verify_password : String → String → Bool) (secret : String) (now ttl : Nat)
    (store : List UserInDB) (email1 pw1 email2 pw2 : String) (u : UserInDB)
    (h1 : store.find? (fun x => x.email == email1) = none)
    (h2 : store.find? (fun x => x.email == email2) = some u)
    (hv : verify_password pw2 u.hashed_password = false) :
    login verify_password secret now ttl store email1 pw1 =
      Except.error loginUnauthenticated ∧
    login verify_password secret now ttl store email2 pw2 =
      Except.error loginUnauthenticated := by
  constructor
  · unfold login
    simp [h1]
  · unfold login
    simp [h2, hv]

/-- Witness for C2: with a one-user store, an unknown email and a wrong
password against the known email both yield the same 401 error. -/
theorem login_failures_indistinguishable_witness :
    login (fun p d => p == d) "secret" 0 1800 [sampleCustomer]
        "nobody@example.com" "pw" = Except.error loginUnauthenticated ∧
    login (fun p d => p == d) "secret" 0 1800 [sampleCustomer]
        "c@example.com" "wrongpassword" = Except.error loginUnauthenticated := by
  exact login_failures_indistinguishable (fun p d => p == d) "secret" 0 1800
    [sampleCustomer] "nobody@example.com" "pw" "c@example.com" "wrongpassword"
    sampleCustomer (by decide) (by decide) (by decide)

/-- C5: a token issued for a subject with a TTL verifies immediately
after issue against the same secret, yielding a payload carrying that
subject and the absolute expiry now + ttl; and once the clock has
advanced past the expiry the same token verifies to invalid (none), not
an exception. -/
theorem token_roundtrip_and_expiry (secret subject : String) (now ttl later : Nat)
    (h : now + ttl < later) :
    verify_token secret now (create_access_token secret subject now ttl) =
      some { sub := some subject, exp := now + ttl } ∧
    verify_token secret later (create_access_token secret subject now ttl) = none := by
  unfold verify_token create_access_token
  constructor
  · simp
  · simp
    omega

/-- Witness for C5: a token issued at time 100 with TTL 1800 verifies at
time 100 and fails at time 1901. -/
theorem token_roundtrip_and_expiry_witness :
    verify_token "secret" 100 (create_access_token "secret" "u1" 100 1800) =
      some { sub := some "u1", exp := 1900 } ∧
    verify_token "secret" 1901 (create_access_token "secret" "u1" 100 1800) = none :=
  token_roundtrip_and_expiry "secret" "u1" 100 1800 1901 (by decide)

/-- C10: a token that verifies to a payload with no sub claim is
rejected by get_current_user with the same 401 error as an invalid
token, for every store alike (so no user-store lookup influences the
outcome), and that error carries status 401. -/
theorem missing_sub_rejected_before_lookup (secret : String) (now : Nat)
    (token : Token) (payload : TokenPayload)
    (hv : verify_token secret now token = some payload)
    (hsub : payload.sub = none) :
    (∀ store : List UserInDB,
        get_current_user secret now store token = Except.error credsInvalid) ∧
    credsInvalid.status_code = 401 := by
  constructor
  · intro store
    unfold get_current_user
    rw [hv]
    simp [hsub]
  · rfl

/-- Witness for C10: a signed token whose payload has no sub claim is
rejected with the 401 credsInvalid error on the empty store and on a
one-user store alike. -/
theorem missing_sub_rejected_before_lookup_witness :
    get_current_user "secret" 0 [] (Token.signed { sub := none, exp := 10 } "secret") =
      Except.error credsInvalid ∧
    get_current_user "secret" 0 [sampleCustomer]
        (Token.signed { sub := none, exp := 10 } "secret") =
      Except.error credsInvalid :=
  ⟨(missing_sub_rejected_before_lookup "secret" 0
      (Token.signed { sub := none, exp := 10 } "secret")
      { sub := none, exp := 10 } (by decide) rfl).1 [],
   (missing_sub_rejected_before_lookup "secret" 0
      (Token.signed { sub := none, exp := 10 } "secret")
      { sub := none, exp := 10 } (by decide) rfl).1 [sampleCustomer]⟩

/-- Counterexample for C3: with the same empty store, an invalid token
and a valid token whose subject matches no stored user both fail with
status 401, but the two error values differ in their detail message
(Could not validate credentials versus User not found), so a deleted
user is distinguishable from a bad token. -/
theorem getCurrentUser_deleted_user_distinguishable :
    get_current_user "secret" 0 [] (Token.malformed "garbage") =
      Except.error credsInvalid ∧
    get_current_user "secret" 0 [] (create_access_token "secret" "u9" 0 100) =
      Except.error userNotFound ∧
    credsInvalid ≠ userNotFound := by
  refine ⟨rfl, ?_, by decide⟩
  simp [get_current_user, create_access_token, verify_token]

/-- C3 amended: every failure of identity resolution carries status 401
with a WWW-Authenticate Bearer header; the token-verification failure
and the missing-subject failure produce one identical error value, but
the deleted-user failure produces a distinct detail message (User not
found), so it is distinguishable from a bad token by the response
body. -/
theorem getCurrentUser_failures_uniform (secret : String) (now : Nat)
    (store : List UserInDB) (token : Token) :
    (∀ e, get_current_user secret now store token = Except.error e →
        e.status_code = 401 ∧ e.www_authenticate = some "Bearer") ∧
    (verify_token secret now token = none →
        get_current_user secret now store token = Except.error credsInvalid) ∧
    (∀ payload, verify_token secret now token = some payload → payload.sub = none →
        get_current_user secret now store token = Except.error credsInvalid) ∧
    (∀ payload uid, verify_token secret now token = some payload →
        payload.sub = some uid →
        store.find? (fun u => u.id == uid) = none →
        get_current_user secret now store token = Except.error userNotFound) ∧
    credsInvalid.detail ≠ userNotFound.detail := by
  refine ⟨?_, ?_, ?_, ?_, by decide⟩
  · intro e he
    unfold get_current_user at he
    split at he
    · injection he with h
      subst h
      exact ⟨rfl, rfl⟩
    · split at he
      · injection he with h
        subst h
        exact ⟨rfl, rfl⟩
      · split at he
        · injection he with h
          subst h
          exact ⟨rfl, rfl⟩
        · exact absurd he (by simp)
  · intro hv
    unfold get_current_user
    rw [hv]
  · intro payload hv hs
    unfold get_current_user
    rw [hv]
    simp [hs]
  · intro payload uid hv hs hf
    unfold get_current_user
    rw [hv]
    simp [hs, hf]

/-- Witness for C3 amended: at a concrete bad token the resolver fails
with a 401 Bearer error, and the missing-subject failure equals the
bad-token failure value. -/
theorem getCurrentUser_failures_uniform_witness :
    get_current_user "secret" 0 [] (Token.malformed "garbage") =
      Except.error credsInvalid ∧
    credsInvalid.status_code = 401 ∧ credsInvalid.www_authenticate = some "Bearer" := by
  refine ⟨(getCurrentUser_failures_uniform "secret" 0 [] (Token.malformed "garbage")).2.1 rfl, ?_⟩
  exact (getCurrentUser_failures_uniform "secret" 0 [] (Token.malformed "garbage")).1
    credsInvalid ((getCurrentUser_failures_uniform "secret" 0 [] (Token.malformed "garbage")).2.1 rfl)

/-- C4: registering with an email already present fails with the 400
conflict error and leaves the users collection unchanged (nothing
inserted); and with a fresh email, registering and then registering
again with the same email has the first call succeed and the second
fail with the conflict error, again leaving the collection as the first
call left it. -/
theorem register_duplicate_email_conflict
    (hash : String → String) (id1 id2 : String) (t1 t2 : Nat)
    (store : List UserInDB) (r : UserCreate) :
    (∀ u, store.find? (fun x => x.email == r.email) = some u →
        register hash id1 t1 store r = (Except.error conflictEmailExists, store)) ∧
    (store.find? (fun x => x.email == r.email) = none →
        register hash id1 t1 store r =
          (Except.ok (toPublic (newUserDoc hash id1 t1 r)),
           store ++ [newUserDoc hash id1 t1 r]) ∧
        register hash id2 t2 (store ++ [newUserDoc hash id1 t1 r]) r =
          (Except.error conflictEmailExists, store ++ [newUserDoc hash id1 t1 r])) := by
  constructor
  · intro u hu
    unfold register
    rw [hu]
  · intro hn
    constructor
    · unfold register
      rw [hn]
    · unfold register
      rw [List.find?_append, hn]
      simp [newUserDoc]

/-- Witness for C4: on the empty store, registering a concrete request
succeeds and the immediate re-registration with the same email fails
with the 400 conflict error. -/
theorem register_duplicate_email_conflict_witness :
    register (fun p => p ++ "#h") "id1" 5 [] 
        { email := "a@example.com", name := "Ann", role := "customer",
          locale := "en", password := "longenough" } =
      (Except.ok (toPublic (newUserDoc (fun p => p ++ "#h") "id1" 5
          { email := "a@example.com", name := "Ann", role := "customer",
            locale := "en", password := "longenough" })),
       [newUserDoc (fun p => p ++ "#h") "id1" 5
          { email := "a@example.com", name := "Ann", role := "customer",
            locale := "en", password := "longenough" }]) ∧
    register (fun p => p ++ "#h") "id2" 6
        [newUserDoc (fun p => p ++ "#h") "id1" 5
          { email := "a@example.com", name := "Ann", role := "customer",
            locale := "en", password := "longenough" }]
        { email := "a@example.com", name := "Ann", role := "customer",
          locale := "en", password := "longenough" } =
      (Except.error conflictEmailExists,
       [newUserDoc (fun p => p ++ "#h") "id1" 5
          { email := "a@example.com", name := "Ann", role := "customer",
            locale := "en", password := "longenough" }]) := by
  have h := (register_duplicate_email_conflict (fun p => p ++ "#h") "id1" "id2" 5 6 []
    { email := "a@example.com", name := "Ann", role := "customer",
      locale := "en", password := "longenough" }).2 rfl
  simpa using h

/-- Re-reading by id after update_one finds the rewritten document,
provided the set function preserves the id. -/
theorem find?_update_one (id : String) (f : UserInDB → UserInDB)
    (store : List UserInDB) (u0 : UserInDB)
    (hpres : ∀ u, (f u).id = u.id)
    (h : store.find? (fun u => u.id == id) = some u0) :
    (update_one id f store).find? (fun u => u.id == id) = some (f u0) := by
  induction store with
  | nil => simp at h
  | cons a rest ih =>
      cases ha : (a.id == id) with
      | true =>
          rw [@List.find?_cons_of_pos _ (fun u => u.id == id) a rest ha] at h
          injection h with h2
          subst h2
          unfold update_one
          rw [if_pos ha]
          exact @List.find?_cons_of_pos _ (fun u => u.id == id) (f a) rest
            (by show ((f a).id == id) = true; rw [hpres a]; exact ha)
      | false =>
          rw [@List.find?_cons_of_neg _ (fun u => u.id == id) a rest
            (by simp [ha])] at h
          unfold update_one
          rw [if_neg (by simp [ha])]
          rw [@List.find?_cons_of_neg _ (fun u => u.id == id) a
            (update_one id f rest) (by simp [ha])]
          exact ih h

/-- C6: with the current user present in the store, an all-empty patch
returns the current state and the unchanged store with no write (so
updated_at keeps its stored value); a non-empty patch rewrites exactly
the stored document of that user, setting only the supplied fields plus
a refreshed updated_at and leaving id, email, role, created_at and
hashed_password untouched, and the response is the public view of the
document re-read from the written store. -/
theorem update_current_user_frame (now : Nat) (store : List UserInDB)
    (cu : UserInDB) (up : UserUpdate) (u0 : UserInDB)
    (hfind : store.find? (fun u => u.id == cu.id) = some u0) :
    (up.name = none ∧ up.locale = none →
        update_current_user now store cu up = some (toPublic cu, store)) ∧
    (¬ (up.name = none ∧ up.locale = none) →
        update_current_user now store cu up =
          some (toPublic (applySet up now u0),
                update_one cu.id (applySet up now) store) ∧
        (update_one cu.id (applySet up now) store).find?
            (fun u => u.id == cu.id) = some (applySet up now u0) ∧
        (applySet up now u0).name = up.name.getD u0.name ∧
        (applySet up now u0).locale = up.locale.getD u0.locale ∧
        (applySet up now u0).updated_at = now ∧
        (applySet up now u0).id = u0.id ∧
        (applySet up now u0).email = u0.email ∧
        (applySet up now u0).role = u0.role ∧
        (applySet up now u0).created_at = u0.created_at ∧
        (applySet up now u0).hashed_password = u0.hashed_password) := by
  have hre := find?_update_one cu.id (applySet up now) store u0 (fun u => rfl) hfind
  constructor
  · intro hnone
    unfold update_current_user
    rw [if_pos hnone]
  · intro hsome
    refine ⟨?_, hre, rfl, rfl, rfl, rfl, rfl, rfl, rfl, rfl⟩
    unfold update_current_user
    rw [if_neg hsome, hre]

/-- Witness for C6: on a one-user store, the empty patch returns the
stored state with the store unchanged, and the patch setting only the
name rewrites name and updated_at while keeping everything else. -/
theorem update_current_user_frame_witness :
    update_current_user 77 [sampleCustomer] sampleCustomer
        { name := none, locale := none } =
      some (toPublic sampleCustomer, [sampleCustomer]) ∧
    update_current_user 77 [sampleCustomer] sampleCustomer
        { name := some "X", locale := none } =
      some (toPublic (applySet { name := some "X", locale := none } 77 sampleCustomer),
            update_one sampleCustomer.id
              (applySet { name := some "X", locale := none } 77) [sampleCustomer]) := by
  constructor
  · exact (update_current_user_frame 77 [sampleCustomer] sampleCustomer
      { name := none, locale := none } sampleCustomer (by decide)).1 ⟨rfl, rfl⟩
  · exact ((update_current_user_frame 77 [sampleCustomer] sampleCustomer
      { name := some "X", locale := none } sampleCustomer (by decide)).2 (by simp)).1

/-- C7: no serialized public representation returned by the core
operations carries a hashed_password key: the register response, the
login response user view, the me response and the update response all
serialize through UserPublic, whose field list has no such key. -/
theorem hashed_password_never_serialized
    (hash : String → String) (verify_password : String → String → Bool)
    (emailShapeOk : String → Bool) (secret newId : String) (now ttl : Nat)
    (store : List UserInDB) (r : UserCreate) (username password : String)
    (cu : UserInDB) (up : UserUpdate) :
    (∀ pub store2,
        handle_register emailShapeOk hash newId now store r = (Except.ok pub, store2) →
        "hashed_password" ∉ (serializeUserPublic pub).map Prod.fst) ∧
    (∀ resp, login verify_password secret now ttl store username password =
        Except.ok resp →
        "hashed_password" ∉ (serializeUserPublic resp.user).map Prod.fst) ∧
    ("hashed_password" ∉
        (serializeUserPublic (get_current_user_info cu)).map Prod.fst) ∧
    (∀ res, update_current_user now store cu up = some res →
        "hashed_password" ∉ (serializeUserPublic res.1).map Prod.fst) := by
  have key : ∀ pub : UserPublic,
      "hashed_password" ∉ (serializeUserPublic pub).map Prod.fst := by
    intro pub
    simp [serializeUserPublic]
  exact ⟨fun pub _ _ => key pub, fun resp _ => key resp.user, key _,
    fun res _ => key res.1⟩

/-- Witness for C7: the me response for a concrete user serializes
without a hashed_password key. -/
theorem hashed_password_never_serialized_witness :
    "hashed_password" ∉
      (serializeUserPublic (get_current_user_info sampleCustomer)).map Prod.fst :=
  (hashed_password_never_serialized (fun p => p) (fun p d => p == d) (fun _ => true)
    "secret" "id1" 0 1800 [] 
    { email := "a@example.com", name := "Ann", role := "customer",
      locale := "en", password := "longenough" }
    "a@example.com" "longenough" sampleCustomer { name := none, locale := none }).2.2.1

/-- C8: a registration request whose password is shorter than 8
characters (in particular of length 7) is rejected with the 422
validation error before any user is created, the store unchanged; and
any password of length exactly 8 passes the declared minimum-length
validation. -/
theorem password_length_validation
    (emailShapeOk : String → Bool) (hash : String → String)
    (newId : String) (now : Nat) (store : List UserInDB) (r : UserCreate)
    (hshort : r.password.length < 8) :
    handle_register emailShapeOk hash newId now store r =
      (Except.error validationError, store) ∧
    ∀ p : String, p.length = 8 → password_min_length_ok p = true := by
  constructor
  · have hp : password_min_length_ok r.password = false := by
      unfold password_min_length_ok
      simp
      omega
    unfold handle_register userCreateValid
    rw [hp]
    simp
  · intro p hp
    unfold password_min_length_ok
    simp [hp]

/-- Witness for C8: the concrete password of length 7 is rejected with
422 on the empty store, and a concrete password of length 8 passes the
minimum-length validation. -/
theorem password_length_validation_witness :
    handle_register (fun _ => true) (fun p => p ++ "#h") "id1" 0 []
        { email := "a@example.com", name := "Ann", role := "customer",
          locale := "en", password := "1234567" } =
      (Except.error validationError, []) ∧
    password_min_length_ok "12345678" = true := by
  have h := password_length_validation (fun _ => true) (fun p => p ++ "#h") "id1" 0 []
    { email := "a@example.com", name := "Ann", role := "customer",
      locale := "en", password := "1234567" } (by decide)
  exact ⟨h.1, h.2 "12345678" (by decide)⟩

/-- C9: for a valid registration request with a fresh email, the
persisted document carries the client-supplied role verbatim (as does
the returned public view), and when that supplied role is super_admin
the persisted user passes require_role for every required role. -/
theorem register_role_verbatim_super_admin
    (emailShapeOk : String → Bool) (hash : String → String) (newId : String)
    (now : Nat) (store : List UserInDB) (r : UserCreate)
    (hvalid : userCreateValid emailShapeOk r = true)
    (hfresh : store.find? (fun x => x.email == r.email) = none) :
    handle_register emailShapeOk hash newId now store r =
      (Except.ok (toPublic (newUserDoc hash newId now r)),
       store ++ [newUserDoc hash newId now r]) ∧
    (newUserDoc hash newId now r).role = r.role ∧
    (toPublic (newUserDoc hash newId now r)).role = r.role ∧
    (r.role = "super_admin" →
      ∀ required_role, require_role required_role (newUserDoc hash newId now r) =
        Except.ok (newUserDoc hash newId now r)) := by
  refine ⟨?_, rfl, rfl, ?_⟩
  · unfold handle_register
    rw [hvalid]
    unfold register
    rw [hfresh]
    simp
  · intro hrole required_role
    unfold require_role
    have : (newUserDoc hash newId now r).role = "super_admin" := hrole
    simp [this]

/-- Witness for C9: a concrete unauthenticated registration request
carrying role super_admin passes validation, is persisted with that
role, and the resulting user passes the market_admin role check. -/
theorem register_role_verbatim_super_admin_witness :
    handle_register (fun _ => true) (fun p => p ++ "#h") "id1" 3 []
        { email := "evil@example.com", name := "Eve", role := "super_admin",
          locale := "en", password := "longenough" } =
      (Except.ok (toPublic (newUserDoc (fun p => p ++ "#h") "id1" 3
          { email := "evil@example.com", name := "Eve", role := "super_admin",
            locale := "en", password := "longenough" })),
       [newUserDoc (fun p => p ++ "#h") "id1" 3
          { email := "evil@example.com", name := "Eve", role := "super_admin",
            locale := "en", password := "longenough" }]) ∧
    require_role "market_admin" (newUserDoc (fun p => p ++ "#h") "id1" 3
        { email := "evil@example.com", name := "Eve", role := "super_admin",
          locale := "en", password := "longenough" }) =
      Except.ok (newUserDoc (fun p => p ++ "#h") "id1" 3
        { email := "evil@example.com", name := "Eve", role := "super_admin",
          locale := "en", password := "longenough" }) := by
  have h := register_role_verbatim_super_admin (fun _ => true) (fun p => p ++ "#h")
    "id1" 3 []
    { email := "evil@example.com", name := "Eve", role := "super_admin",
      locale := "en", password := "longenough" } (by decide) rfl
  exact ⟨h.1, h.2.2.2 rfl "market_admin"⟩
